import Mathlib

/-!
Shallow embedding of the query-interpretation and filter-evaluation pipeline of
the Calgary 3D city dashboard backend (src/backend/app.py and
src/backend/llm_handler.py), together with theorems settling the spec claims.

Python machine details are modelled as follows: Python numbers (int/float) are
embedded as Int/Rat (the program only compares and multiplies small decimal
literals, where float and rational arithmetic agree); dictionaries become
association lists; exceptions become an explicit Except with the two exception
classes the code can raise and catch in its filter loop (ValueError, TypeError).
The rule-based parser and the number extractor in llm_handler.py both evaluate
re.search, but the module never imports re, so in the running program every
call of either function raises NameError before any pattern or float() runs;
that raise is modelled as an explicit error value.
-/

deriving instance DecidableEq for Except

namespace Calgary

/-- A Python scalar value as stored in a record or a filter: int, float, or str. -/
inductive Scalar where
  | int (n : Int)
  | float (q : Rat)
  | str (s : String)
deriving DecidableEq, Repr

/-- The Python exception classes the embedding distinguishes: the two that the
filter loop in app.py catches and float() can raise, and the NameError that the
unbound name re raises in llm_handler.py. -/
inductive PyErr where
  | valueError
  | typeError
  | nameError
deriving DecidableEq, Repr

/-! ### ASCII character and string helpers (Python lower/upper, substring tests) -/

def isAsciiUpper (c : Char) : Bool := 'A' ≤ c && c ≤ 'Z'

def isAsciiLower (c : Char) : Bool := 'a' ≤ c && c ≤ 'z'

def lowerChar (c : Char) : Char := if isAsciiUpper c then Char.ofNat (c.toNat + 32) else c

def upperChar (c : Char) : Char := if isAsciiLower c then Char.ofNat (c.toNat - 32) else c

/-- Python str.lower() for the ASCII text this program handles. -/
def pyLower (s : String) : String := ⟨s.data.map lowerChar⟩

/-- Python str.upper() for the ASCII text this program handles. -/
def pyUpper (s : String) : String := ⟨s.data.map upperChar⟩

/-- Does the first list occur at the head of the second list? -/
def startsL : List Char → List Char → Bool
  | [], _ => true
  | _ :: _, [] => false
  | a :: as, b :: bs => a = b && startsL as bs

/-- Python substring test: does sub occur anywhere in the second list? -/
def containsL (sub : List Char) : List Char → Bool
  | [] => sub.isEmpty
  | c :: t => startsL sub (c :: t) || containsL sub t

/-- Python: sub in s. -/
def containsS (s sub : String) : Bool := containsL sub.data s.data

/-- Python: s.startswith(sub). -/
def startsS (s sub : String) : Bool := startsL sub.data s.data

/-- Python: s.endswith(sub). -/
def endsS (s sub : String) : Bool := startsL sub.data.reverse s.data.reverse

/-! ### Python float() on strings (the fragment the program exercises) -/

def isDigitCh (c : Char) : Bool := '0' ≤ c && c ≤ '9'

def digitVal (c : Char) : Nat := c.toNat - 48

def digitsVal (ds : List Char) : Nat := ds.foldl (fun a c => a * 10 + digitVal c) 0

def isPySpace (c : Char) : Bool :=
  c = ' ' || c = '\t' || c = '\n' || c = '\r' || c = '\x0b' || c = '\x0c'

def dropSpaces (s : List Char) : List Char := s.dropWhile isPySpace

/-- Embedding of Python float(str) on the forms this program can feed it:
optional surrounding whitespace, optional sign, decimal digits with an optional
fractional part. Every other input (including the empty string) raises
ValueError, exactly as float() does. The value is assembled with mkRat and
integer arithmetic, which is the exact rational the decimal text denotes. -/
def parsePyFloat (s : List Char) : Except PyErr Rat :=
  let t1 := (dropSpaces ((dropSpaces s).reverse)).reverse
  let signed : Int × List Char :=
    match t1 with
    | '-' :: r => (-1, r)
    | '+' :: r => (1, r)
    | _ => (1, t1)
  let sign := signed.1
  let t2 := signed.2
  let intPart := t2.takeWhile isDigitCh
  let rest := t2.dropWhile isDigitCh
  match rest with
  | [] =>
    if intPart.isEmpty then .error .valueError
    else .ok (mkRat (sign * digitsVal intPart) 1)
  | '.' :: r =>
    let frac := r.takeWhile isDigitCh
    let rest2 := r.dropWhile isDigitCh
    if rest2.isEmpty && !(intPart.isEmpty && frac.isEmpty) then
      .ok (mkRat (sign * (digitsVal intPart * 10 ^ frac.length + digitsVal frac)) (10 ^ frac.length))
    else .error .valueError
  | _ => .error .valueError

/-! ### Records and filters (the data model of apply_filter in app.py) -/

/-- One building record: a Python dict with an id key (always present, see
data_fetcher.py which drops records without a truthy id) plus the other fields. -/
structure Building where
  id : Scalar
  attrs : List (String × Scalar)
deriving DecidableEq, Repr

/-- Python building.get(k): dictionary lookup returning None when absent. -/
def Building.get (b : Building) (k : String) : Option Scalar :=
  if k = "id" then some b.id
  else (b.attrs.find? (fun p => p.1 == k)).map Prod.snd

/-- One filter dict as apply_filter reads it: the attribute, operator and value
keys, each possibly absent (f.get supplies the defaults). The attribute key is
named attr here because attribute is a Lean keyword. -/
structure Filter where
  attr : Option String := none
  operator : Option String := none
  value : Option Scalar := none
deriving DecidableEq, Repr

/-- The parsed filter object handed to apply_filter: either a dict with a
filters key, a non-empty dict without one (treated as a single filter), or the
empty dict (which is falsy in Python). -/
inductive FilterObj where
  | withFilters (filters : List Filter)
  | single (f : Filter)
  | emptyDict
deriving DecidableEq, Repr

/-- app.py lines 101-105: if the dict has a filters key use it, else treat the
whole dict as one filter. -/
def FilterObj.getFilters : FilterObj → List Filter
  | .withFilters fs => fs
  | .single f => [f]
  | .emptyDict => [{}]

/-- Python truthiness of the extracted object (llm_handler.py line 105):
a dict is falsy iff it is empty. -/
def FilterObj.truthy : FilterObj → Bool
  | .emptyDict => false
  | _ => true

/-- The attribute alias table of apply_filter (app.py lines 110-123). -/
def attribute_map : List (String × String) :=
  [("height", "height"),
   ("value", "assessed_value"),
   ("assessed_value", "assessed_value"),
   ("zoning", "zoning"),
   ("zone", "zoning"),
   ("type", "building_type"),
   ("building_type", "building_type"),
   ("address", "address"),
   ("street", "address"),
   ("land_size", "land_size_sf"),
   ("land_size_sf", "land_size_sf"),
   ("lot_size", "land_size_sf")]

/-- Python dict.get(k, dflt). -/
def mapGet (m : List (String × String)) (k dflt : String) : String :=
  match m.find? (fun p => p.1 == k) with
  | some p => p.2
  | none => dflt

/-- app.py lines 131, 135: lower-case the attribute then resolve it through the
alias table, falling back to the raw lower-cased name. -/
def resolveAttr (f : Filter) : String :=
  let attrName := pyLower (f.attr.getD "")
  mapGet attribute_map attrName attrName

def numericOps : List String := [">", "<", ">=", "<=", "==", "!="]

def stringOps : List String := ["contains", "equals", "=", "endswith", "startswith"]

/-- float(building_value) if not isinstance(building_value, (int, float)) else
building_value (app.py line 145). -/
def pyFloatScalar : Scalar → Except PyErr Rat
  | .int n => .ok (n : Rat)
  | .float q => .ok q
  | .str s => parsePyFloat s.data

/-- float(value) (app.py line 146): None raises TypeError, a string parses or
raises ValueError. -/
def pyFloatOpt : Option Scalar → Except PyErr Rat
  | none => .error .typeError
  | some v => pyFloatScalar v

/-- Digits of the fractional part num/den (num < den), most significant first. -/
def fracDigitsAux (fuel num den : Nat) : List Char :=
  match fuel with
  | 0 => []
  | fuel' + 1 =>
    if num = 0 then []
    else Char.ofNat (48 + num * 10 / den) :: fracDigitsAux fuel' (num * 10 % den) den

/-- Decimal rendering of a Rat standing in for Python str() of a float; exact on
values with a short terminating decimal expansion, which covers every float this
program stringifies. -/
def floatRepr (q : Rat) : String :=
  let sign := if q.num < 0 then "-" else ""
  let n := q.num.natAbs
  let ds := fracDigitsAux 20 (n % q.den) q.den
  sign ++ toString (n / q.den) ++ "." ++ (if ds.isEmpty then "0" else ⟨ds⟩)

/-- Python str() on a scalar. -/
def pyStr : Scalar → String
  | .int n => toString n
  | .float q => floatRepr q
  | .str s => s

/-- Python str(value) where value may be None. -/
def pyStrOpt : Option Scalar → String
  | none => "None"
  | some v => pyStr v

/-- The numeric comparison outcome of app.py lines 148-159: the record keeps
matching iff the stated comparison holds. -/
def numCompare (op : String) (b v : Rat) : Bool :=
  if op = ">" then b > v
  else if op = "<" then b < v
  else if op = ">=" then b ≥ v
  else if op = "<=" then b ≤ v
  else if op = "==" then b = v
  else b ≠ v

/-- The string matching outcome of app.py lines 166-173. -/
def strTest (op : String) (building_str value_str : String) : Bool :=
  if op = "contains" then containsS building_str value_str
  else if op = "equals" || op = "=" then building_str = value_str
  else if op = "endswith" then endsS building_str value_str
  else startsS building_str value_str

/-- The try block of app.py lines 142-173, for a building value that is present.
An operator in neither vocabulary falls through both branches and leaves
matches_all untouched, so the result is true. -/
def try_body (building_value : Scalar) (operator : String) (value : Option Scalar) :
    Except PyErr Bool :=
  if operator ∈ numericOps then
    match pyFloatScalar building_value with
    | .error e => .error e
    | .ok building_num =>
      match pyFloatOpt value with
      | .error e => .error e
      | .ok value_num => .ok (numCompare operator building_num value_num)
  else if operator ∈ stringOps then
    .ok (strTest operator (pyUpper (pyStr building_value)) (pyUpper (pyStrOpt value)))
  else .ok true

/-- One iteration of the inner predicate loop of apply_filter (app.py lines
130-177): resolve the attribute, fail on a missing value, then run the try
block with ValueError/TypeError caught as predicate failure. -/
def matches_one (building : Building) (f : Filter) : Bool :=
  match building.get (resolveAttr f) with
  | none => false
  | some building_value =>
    match try_body building_value (f.operator.getD "") f.value with
    | .ok r => r
    | .error _ => false

/-- The inner loop with its break: the record matches iff every filter matches,
tested left to right. -/
def run_filters (building : Building) : List Filter → Bool
  | [] => true
  | f :: fs => matches_one building f && run_filters building fs

/-- The outer loop of apply_filter, collecting ids of matching buildings in
input order. -/
def apply_filter_go (filters : List Filter) : List Building → List Scalar
  | [] => []
  | b :: rest =>
    if run_filters b filters then b.id :: apply_filter_go filters rest
    else apply_filter_go filters rest

/-- apply_filter(buildings, filter_obj) of app.py lines 98-182. -/
def apply_filter (buildings : List Building) (filter_obj : FilterObj) : List Scalar :=
  apply_filter_go filter_obj.getFilters buildings

/-! ### extract_number, fallback_parse and process_query (llm_handler.py) -/

/-- The result dict of process_query and fallback_parse. -/
structure PQResult where
  success : Bool
  filter : Option FilterObj := none
  raw_response : Option String := none
  error : Option String := none
  source : String
deriving DecidableEq, Repr

/-- extract_number(text) of llm_handler.py lines 258-282. Line 260 lowers the
text, and line 263 then evaluates re.search as the first match attempt; the
module imports only os, json, requests and dotenv (lines 1-4) and never
imports re, so the name lookup raises NameError there on every call, before
any pattern or float() can run. The function never returns a value. -/
def extract_number (_text : String) : Except PyErr (Option Rat) :=
  .error .nameError

/-- The function named fallback_parser in llm_handler.py, lines 164-255 (the
trailing r is dropped from the Lean name). The quadrant block of lines 171-181
runs on the lower-cased query using only string methods, but its work is
unobservable: the street-pattern loop of lines 188-189 runs unconditionally
right after it and evaluates re.search on its first iteration, and re is never
imported, so every call raises NameError there. The function never returns a
filter set or a failure dict. -/
def fallback_parse (_query : String) : Except PyErr PQResult :=
  .error .nameError

/-- The outcome of the completion-service round trip in process_query, as seen
by the code after the HTTP library and json parsing return: the post call
raised a transport error; the response JSON carried an error key; the expected
choices, message and content fields were missing (KeyError); or a generated
text was obtained whose extract_json result is the given optional object. The
HTTP transport and the json.loads inside extract_json are external library
calls, modelled by this outcome value. -/
inductive ModelOutcome where
  | transportError
  | apiError
  | missingField
  | extracted (generated_text : String) (obj : Option FilterObj)

def setSource (r : PQResult) (s : String) : PQResult := { r with source := s }

/-- process_query(user_query) of llm_handler.py lines 22-135, parameterised by
the model outcome. On the extracted path a truthy object is returned as an LLM
success. Every other branch calls fallback_parser, which raises NameError
(see fallback_parse): raised inside the transport-error handler it propagates
directly; raised inside the try block it is caught by the generic handler,
which calls fallback_parser again and the second raise propagates. Either way
the call raises, which the Except map over the error preserves: no fallback
result dict is ever returned. -/
def process_query (outcome : ModelOutcome) (user_query : String) : Except PyErr PQResult :=
  match outcome with
  | .transportError => (fallback_parse user_query).map (fun r => setSource r "FALLBACK_ERROR")
  | .apiError => (fallback_parse user_query).map (fun r => setSource r "FALLBACK_ERROR")
  | .missingField => (fallback_parse user_query).map (fun r => setSource r "FALLBACK_PARSE_ERROR")
  | .extracted text obj =>
    match obj with
    | some o =>
      if o.truthy then
        .ok { success := true, filter := some o, raw_response := some text, source := "LLM" }
      else (fallback_parse user_query).map (fun r => setSource r "FALLBACK")
    | none => (fallback_parse user_query).map (fun r => setSource r "FALLBACK")

/-! ### Shared concrete records and filters used by several theorems -/

def hFilter : Filter := ⟨some "height", some ">", some (.float 100)⟩

def tFilter : Filter := ⟨some "building_type", some "equals", some (.str "Commercial")⟩

def bTall : Building := ⟨.int 1, [("height", .float 120), ("building_type", .str "Commercial")]⟩

def bShort : Building := ⟨.int 2, [("height", .float 80), ("building_type", .str "Commercial")]⟩

/-! ### Infrastructure lemmas about the evaluator -/

lemma run_filters_eq_all (b : Building) (fs : List Filter) :
    run_filters b fs = fs.all (fun f => matches_one b f) := by
  induction fs with
  | nil => rfl
  | cons f fs ih => simp [run_filters, ih]

lemma apply_filter_go_eq (fs : List Filter) (bs : List Building) :
    apply_filter_go fs bs = (bs.filter (fun b => run_filters b fs)).map Building.id := by
  induction bs with
  | nil => rfl
  | cons b bs ih =>
    by_cases h : run_filters b fs
    · simp [apply_filter_go, List.filter_cons, h, ih]
    · simp [apply_filter_go, List.filter_cons, h, ih]

lemma run_filters_false_of_mem (b : Building) {f : Filter} {fs : List Filter}
    (hmem : f ∈ fs) (hf : matches_one b f = false) : run_filters b fs = false := by
  induction fs with
  | nil => cases hmem
  | cons g gs ih =>
    rcases List.mem_cons.mp hmem with rfl | hm
    · simp [run_filters, hf]
    · simp [run_filters, ih hm]

/-! ### Claim theorems -/

/-- Claim C2: for a FilterSet with at least two predicates and records with
pairwise distinct ids, a record id is in the output iff the record passes every
predicate; the output is the id image of the in-order filtered records, hence a
sublist of the input id sequence (stable order); and re-evaluating on the same
inputs gives the same output. -/
theorem evaluator_conjunction_order_idempotent
    (records : List Building) (fobj : FilterObj)
    (_hlen : 2 ≤ fobj.getFilters.length)
    (hids : (records.map Building.id).Nodup) :
    (∀ b ∈ records,
      b.id ∈ apply_filter records fobj ↔ ∀ f ∈ fobj.getFilters, matches_one b f = true)
    ∧ apply_filter records fobj =
        (records.filter (fun b => run_filters b fobj.getFilters)).map Building.id
    ∧ (apply_filter records fobj).Sublist (records.map Building.id)
    ∧ apply_filter records fobj = apply_filter records fobj := by
  refine ⟨?_, apply_filter_go_eq .., ?_, rfl⟩
  · intro b hb
    constructor
    · intro hmem
      rw [apply_filter, apply_filter_go_eq] at hmem
      rcases List.mem_map.mp hmem with ⟨b', hb', hid⟩
      rcases List.mem_filter.mp hb' with ⟨hb'rec, hpass⟩
      have hbb : b' = b := List.inj_on_of_nodup_map hids hb'rec hb hid
      subst hbb
      rw [run_filters_eq_all] at hpass
      exact fun f hf => List.all_eq_true.mp hpass f hf
    · intro hall
      rw [apply_filter, apply_filter_go_eq]
      refine List.mem_map.mpr ⟨b, List.mem_filter.mpr ⟨hb, ?_⟩, rfl⟩
      rw [run_filters_eq_all]
      exact List.all_eq_true.mpr hall
  · rw [apply_filter, apply_filter_go_eq]
    exact (List.filter_sublist _).map _

/-- Witness for C2 at a concrete two-record, two-predicate instance. -/
theorem evaluator_conjunction_witness :
    2 ≤ (FilterObj.withFilters [hFilter, tFilter]).getFilters.length ∧
    ([bTall, bShort].map Building.id).Nodup ∧
    (apply_filter [bTall, bShort] (.withFilters [hFilter, tFilter])).Sublist
      ([bTall, bShort].map Building.id) :=
  ⟨by decide, by decide,
    (evaluator_conjunction_order_idempotent [bTall, bShort] (.withFilters [hFilter, tFilter])
      (by decide) (by decide)).2.2.1⟩

/-- Claim C8 is a code bug: on the text about buildings over 100 feet of
commercial type the rule-based parser raises NameError at the street-pattern
re.search (llm_handler.py line 189: re is never imported) before any detector
can emit the claimed height and building-type predicates, so the scenario
never happens; the evaluation half of the scenario does hold of apply_filter
for the FilterSet the claim names, including the 120-foot commercial record
and excluding the 80-foot one. -/
theorem scenario_height_commercial_raises :
    fallback_parse "buildings over 100 feet and commercial type" = .error .nameError
    ∧ apply_filter [bTall, bShort] (.withFilters [hFilter, tFilter]) = [bTall.id]
    ∧ bTall.id ∈ apply_filter [bTall, bShort] (.withFilters [hFilter, tFilter])
    ∧ bShort.id ∉ apply_filter [bTall, bShort] (.withFilters [hFilter, tFilter]) := by
  decide

/-- Claim C5 is a code bug: extract_number is not total and never returns a
number or none, because llm_handler.py never imports re and line 263 evaluates
re.search first on every call, raising NameError before any pattern or float()
runs; in particular the bare comma input raises instead of being treated as
none. -/
theorem extract_number_always_raises :
    (∀ text : String, extract_number text = .error .nameError) ∧
    extract_number "," = .error .nameError :=
  ⟨fun _ => rfl, rfl⟩

/-- Claim C1 counterexample: a model-extracted object whose filters array is
empty is truthy, so process_query reports success with source LLM and no
fallback runs, and the evaluator given the empty predicate list returns every
record id. -/
theorem empty_filters_counterexample :
    process_query (.extracted "j" (some (.withFilters []))) "some query" =
      .ok { success := true, filter := some (.withFilters []), raw_response := some "j",
            source := "LLM" }
    ∧ apply_filter [bTall, bShort] (.withFilters []) = [.int 1, .int 2] := by
  decide

/-- Claim C1 amended: a model-produced object with an empty filters array is a
non-empty dict, hence truthy: the interpreter reports success with it (source
LLM, no fallback), and the evaluator given an empty predicate list returns the
id of every record, in order. -/
theorem empty_filters_accepted_matches_all :
    (∀ (text q : String),
      process_query (.extracted text (some (.withFilters []))) q =
        .ok { success := true, filter := some (.withFilters []), raw_response := some text,
              source := "LLM" })
    ∧ ∀ (records : List Building),
        apply_filter records (.withFilters []) = records.map Building.id := by
  refine ⟨fun text q => rfl, ?_⟩
  intro records
  induction records with
  | nil => rfl
  | cons b bs ih =>
    simp only [apply_filter, FilterObj.getFilters] at ih ⊢
    simp [apply_filter_go, run_filters, ih]

/-- Claim C4 counterexample: the operator named matches is in neither operator
vocabulary, yet the predicate does not fail: the record is included in the
output, where the claim requires exclusion. -/
theorem operator_kind_counterexample :
    "matches" ∉ numericOps ∧ "matches" ∉ stringOps ∧
    matches_one ⟨.int 7, [("height", .int 50)]⟩
      ⟨some "height", some "matches", some (.int 50)⟩ = true ∧
    apply_filter [⟨.int 7, [("height", .int 50)]⟩]
      (.single ⟨some "height", some "matches", some (.int 50)⟩) = [.int 7] := by
  decide

/-- Claim C6 counterexample: the attribute latitude does not resolve through
the alias table, but the raw name falls through to the record lookup, and a
record carrying that field is matched by the predicate, where the claim
requires that no record match. -/
theorem unresolved_attribute_counterexample :
    attribute_map.find? (fun p => p.1 == pyLower "latitude") = none ∧
    matches_one ⟨.int 3, [("latitude", .float 51)]⟩
      ⟨some "latitude", some ">", some (.int 50)⟩ = true ∧
    apply_filter [⟨.int 3, [("latitude", .float 51)]⟩]
      (.single ⟨some "latitude", some ">", some (.int 50)⟩) = [.int 3] := by
  decide

/-- Claim C7 is a code bug: on a transport failure process_query calls
fallback_parser inside the except handler (llm_handler.py line 121), which
raises NameError at line 189 because re is never imported; the NameError
propagates out of process_query, so the call raises and no interpretation
result carrying FALLBACK_ERROR (or any filter set) is ever returned. -/
theorem transport_error_raises :
    (∀ q : String, process_query .transportError q = .error .nameError) ∧
    process_query .transportError "commercial buildings" = .error .nameError :=
  ⟨fun _ => rfl, rfl⟩

/-- Claim C3: a missing or None record value for the resolved attribute, or a
float coercion failure of either side under a relational operator, makes the
predicate fail and excludes the record from any FilterSet containing it; both
exceptions are caught, so the failure is a boolean outcome, not an error. -/
theorem predicate_anomaly_soft_failure (b : Building) (f : Filter)
    (h : b.get (resolveAttr f) = none ∨
      ∃ v, b.get (resolveAttr f) = some v ∧ f.operator.getD "" ∈ numericOps ∧
        ((∃ e, pyFloatScalar v = .error e) ∨ (∃ e, pyFloatOpt f.value = .error e))) :
    matches_one b f = false ∧ ∀ fs, f ∈ fs → run_filters b fs = false := by
  have hm : matches_one b f = false := by
    rcases h with hnone | ⟨v, hv, hop, herr⟩
    · simp [matches_one, hnone]
    · rcases herr with ⟨e, he⟩ | ⟨e, he⟩
      · simp [matches_one, hv, try_body, hop, he]
      · cases hbv : pyFloatScalar v with
        | error e2 => simp [matches_one, hv, try_body, hop, hbv]
        | ok q => simp [matches_one, hv, try_body, hop, hbv, he]
  exact ⟨hm, fun fs hmem => run_filters_false_of_mem b hmem hm⟩

/-- Witness for C3: a record with no height field fails a height predicate. -/
theorem predicate_anomaly_witness :
    matches_one ⟨.int 5, []⟩ ⟨some "height", some ">", some (.float 1)⟩ = false :=
  (predicate_anomaly_soft_failure ⟨.int 5, []⟩ ⟨some "height", some ">", some (.float 1)⟩
    (Or.inl (by decide))).1

/-- Claim C4 amended: apply_filter dispatches on the operator alone and never
checks the attribute kind. With the attribute value present: an operator in
neither vocabulary leaves the predicate vacuously satisfied (the record is not
excluded); a relational operator fails the predicate, without an exception,
exactly on float-coercion failure of either side; and a match operator is
evaluated as an upper-cased string test on the stringified value regardless of
the attribute kind, so it can succeed on a numeric attribute. -/
theorem operator_kind_behavior (b : Building) (f : Filter) (v : Scalar)
    (hv : b.get (resolveAttr f) = some v) :
    (f.operator.getD "" ∉ numericOps → f.operator.getD "" ∉ stringOps →
      matches_one b f = true)
    ∧ (f.operator.getD "" ∈ numericOps →
        ((∃ e, pyFloatScalar v = .error e) ∨ (∃ e, pyFloatOpt f.value = .error e)) →
        matches_one b f = false)
    ∧ (f.operator.getD "" ∈ stringOps →
        matches_one b f = strTest (f.operator.getD "") (pyUpper (pyStr v)) (pyUpper (pyStrOpt f.value))) := by
  refine ⟨?_, ?_, ?_⟩
  · intro h1 h2
    simp [matches_one, hv, try_body, h1, h2]
  · intro hop herr
    rcases herr with ⟨e, he⟩ | ⟨e, he⟩
    · simp [matches_one, hv, try_body, hop, he]
    · cases hbv : pyFloatScalar v with
      | error e2 => simp [matches_one, hv, try_body, hop, hbv]
      | ok q => simp [matches_one, hv, try_body, hop, hbv, he]
  · intro hop
    have hnum : f.operator.getD "" ∉ numericOps := by
      simp only [stringOps, List.mem_cons, List.not_mem_nil, or_false] at hop
      rcases hop with h | h | h | h | h <;> rw [h] <;> decide
    simp [matches_one, hv, try_body, hop, hnum]

/-- Witness for C4 amended: an unknown operator passes the predicate. -/
theorem operator_kind_behavior_witness :
    matches_one ⟨.int 7, [("height", .int 50)]⟩
      ⟨some "height", some "wat", some (.int 50)⟩ = true :=
  (operator_kind_behavior ⟨.int 7, [("height", .int 50)]⟩
    ⟨some "height", some "wat", some (.int 50)⟩ (.int 50) (by decide)).1
    (by decide) (by decide)

/-- Claim C6 amended: an attribute that the alias table does not know is looked
up in the record under its raw lower-cased name; against any record lacking a
field of that name the predicate fails and excludes the record, with no
exception, though records that do carry such a field can still match. -/
theorem unresolved_attribute_soft_failure (b : Building) (f : Filter)
    (hmap : attribute_map.find? (fun p => p.1 == pyLower (f.attr.getD "")) = none)
    (hget : b.get (pyLower (f.attr.getD "")) = none) :
    matches_one b f = false ∧ ∀ fs, f ∈ fs → run_filters b fs = false := by
  have hres : resolveAttr f = pyLower (f.attr.getD "") := by
    simp [resolveAttr, mapGet, hmap]
  have hm : matches_one b f = false := by
    simp [matches_one, hres, hget]
  exact ⟨hm, fun fs hmem => run_filters_false_of_mem b hmem hm⟩

/-- Witness for C6 amended: the unknown attribute floors never matches a record
without that field. -/
theorem unresolved_attribute_witness :
    matches_one ⟨.int 4, []⟩ ⟨some "floors", some ">", some (.int 2)⟩ = false :=
  (unresolved_attribute_soft_failure ⟨.int 4, []⟩ ⟨some "floors", some ">", some (.int 2)⟩
    (by decide) (by decide)).1

/-- Two filters that resolve to the same attribute and share operator and value
evaluate identically. -/
lemma matches_one_congr (b : Building) (f₁ f₂ : Filter)
    (hres : resolveAttr f₁ = resolveAttr f₂) (hop : f₁.operator = f₂.operator)
    (hval : f₁.value = f₂.value) : matches_one b f₁ = matches_one b f₂ := by
  simp only [matches_one, hres, hop, hval]

lemma apply_filter_congr_single (records : List Building) (f₁ f₂ : Filter)
    (h : ∀ b, matches_one b f₁ = matches_one b f₂) :
    apply_filter records (.single f₁) = apply_filter records (.single f₂) := by
  induction records with
  | nil => rfl
  | cons b bs ih =>
    simp only [apply_filter, FilterObj.getFilters] at ih ⊢
    simp [apply_filter_go, run_filters, h b, ih]

/-- Claim C9: the attribute names value and assessed_value give identical
evaluation results for every record sequence, operator and value, and alias
resolution is case-insensitive: two attribute spellings with the same
lower-casing evaluate identically. -/
theorem alias_value_equivalence :
    (∀ (records : List Building) (op : Option String) (v : Option Scalar),
      apply_filter records (.single ⟨some "value", op, v⟩) =
        apply_filter records (.single ⟨some "assessed_value", op, v⟩))
    ∧ (∀ (b : Building) (a₁ a₂ op : Option String) (v : Option Scalar),
        pyLower (a₁.getD "") = pyLower (a₂.getD "") →
        matches_one b ⟨a₁, op, v⟩ = matches_one b ⟨a₂, op, v⟩) := by
  constructor
  · intro records op v
    apply apply_filter_congr_single
    intro b
    exact matches_one_congr b _ _ rfl rfl rfl
  · intro b a₁ a₂ op v h
    have hres : resolveAttr ⟨a₁, op, v⟩ = resolveAttr ⟨a₂, op, v⟩ := by
      simp only [resolveAttr, h]
    exact matches_one_congr b _ _ hres rfl rfl

/-- Witness for C9: the upper-cased spelling VALUE evaluates like value. -/
theorem alias_value_witness :
    pyLower ((some "VALUE").getD "") = pyLower ((some "value").getD "") ∧
    matches_one bTall ⟨some "VALUE", some ">", some (.int 5)⟩ =
      matches_one bTall ⟨some "value", some ">", some (.int 5)⟩ :=
  ⟨by decide, alias_value_equivalence.2 bTall (some "VALUE") (some "value") (some ">")
    (some (.int 5)) (by decide)⟩

/-- Claim C10 is a code bug: the shared-number data flow it describes is what
llm_handler.py lines 196-223 spell out (all three numeric detectors call
extract_number on the whole original query), but the missing import of re
makes that code unreachable: fallback_parser raises NameError at line 189
before the height, value or land detector can run, so no parse ever emits the
predicates the claim relates; on the concrete two-detector query no predicates
are produced at all, instead of two carrying the shared magnitude 2000000. -/
theorem detectors_never_fire :
    (∀ q : String, fallback_parse q = .error .nameError) ∧
    fallback_parse "buildings over 100 feet worth over $2 million" = .error .nameError ∧
    process_query (.extracted "no json here" none)
      "buildings over 100 feet worth over $2 million" = .error .nameError :=
  ⟨fun _ => rfl, rfl, rfl⟩

end Calgary
